import Mathlib

set_option maxHeartbeats 1000000
set_option maxRecDepth 10000
set_option linter.unusedVariables false

/-!
Verification of pytorch-3dunet (files `pytorch3dunet/unet3d/config.py` and
`pytorch3dunet/unet3d/trainer.py`) against its natural-language specification.

The Python code is shallowly embedded: dictionaries become association lists,
Python exceptions become an `Except PyErr` monad, wall-clock time and the
external deep-learning framework primitives (forward pass, backward pass,
optimizer step, device transfer, profilers) become abstract oracles or trace
events.  Every definition is annotated with the source lines it translates.
-/

namespace U3D

/-- Python exceptions that the embedded code can raise. -/
inductive PyErr where
  | keyError (k : String)
  | typeError
  | attributeError
  | nameError
  | runtimeError
  | zeroDivisionError
  deriving DecidableEq, Repr

/-! ### Association lists (Python `dict`)

Python dicts are modelled as association lists with a normalising insert
(`insertKey` removes any previous binding and appends the new one at the end).
Python's `dict.__eq__` is insertion-order-insensitive, and the embedded code
only builds dicts with unique keys, so key lookup — the only observation the
code makes — agrees with CPython on every input, and structural equality of
normalised lists coincides with Python dict equality. -/

/-- Lookup of a key in an association list (`d[k]` / `d.get(k)`). -/
def alookup {β : Type} : List (String × β) → String → Option β
  | [], _ => none
  | (k', v) :: rest, k => if k' = k then some v else alookup rest k

/-- Remove every binding of a key. -/
def eraseKey {β : Type} : List (String × β) → String → List (String × β)
  | [], _ => []
  | (k', v) :: rest, k =>
    if k' = k then eraseKey rest k else (k', v) :: eraseKey rest k

/-- Python `d[k] = v`: replace any previous binding of `k` by `v`. -/
def insertKey {β : Type} (m : List (String × β)) (k : String) (v : β) :
    List (String × β) :=
  eraseKey m k ++ [(k, v)]

/-- `d[k]` with Python semantics: a missing key raises `KeyError(k)`. -/
def keyOf {β : Type} (m : List (String × β)) (k : String) : Except PyErr β :=
  match alookup m k with
  | some v => .ok v
  | none => .error (.keyError k)

/-! ### YAML / config values -/

/-- Values a parsed YAML config (and the config dict after `load_config`)
can hold.  `device` models a `torch.device` object holding its device
string. -/
inductive Y where
  | null
  | bool (b : Bool)
  | int (n : Int)
  | str (s : String)
  | dict (entries : List (String × Y))
  | device (d : String)

/-- Python truthiness of a config value (used by `if config['channels_last']`,
trainer.py line 33 / 276 / 325). -/
def Y.truthy : Y → Bool
  | .null => false
  | .bool b => b
  | .int n => n != 0
  | .str s => !s.isEmpty
  | .dict m => !m.isEmpty
  | .device _ => true

/-- Python `str(v)` restricted to what trainer.py compares it with
(`config['device'].__str__() == "xpu"`, trainer.py line 54).  A
`torch.device` prints as its device string; no other value the code can
store under `config['device']` prints as `"xpu"` unless it is the string
itself. -/
def Y.pyStr : Y → String
  | .device d => d
  | .str s => s
  | .int n => toString n
  | .bool b => if b then "True" else "False"
  | .null => "None"
  | .dict _ => ""

/-- The parsed command-line arguments of config.py lines 12-25. -/
structure Args where
  batch_size : Int
  precision : String
  channels_last : Int
  jit : Bool
  profile : Bool
  num_iter : Int
  num_warmup : Int
  device : String
  nv_fuser : Bool
  ipex : Bool

/-- The argparse defaults of config.py lines 15-24:
batch_size 1, precision "float32", channels_last 1, jit False, profile False,
num_iter 200, num_warmup 20, device 'cpu', nv_fuser False, ipex False. -/
def defaultArgs : Args :=
  ⟨1, "float32", 1, false, false, 200, 20, "cpu", false, false⟩

/-- config.py lines 28-36: read `config.get('device', None)`, and when it is
a string run the CUDA-availability fallback.  The computed local string is
dead code — line 38 overwrites it with `args.device` — but its evaluation can
raise: a present, non-null, non-string `device` value has no `startswith`
attribute (`AttributeError`). -/
def deviceBlock (cudaAvailable : Bool) (v : Option Y) : Except PyErr String :=
  match v with
  | none => .ok (if cudaAvailable then "cuda:0" else "cpu")
  | some .null => .ok (if cudaAvailable then "cuda:0" else "cpu")
  | some (.str s) =>
      .ok (if s.startsWith "cuda" && !cudaAvailable then "cpu" else s)
  | some _ => .error .attributeError

/-- config.py lines 38-51: overwrite the config with the command-line flags.
`torch.device(device_str)` (line 39) is modelled as the total constructor
`Y.device` holding the string. -/
def overrideLoad (args : Args) (m : List (String × Y)) : Except PyErr Y := do
  let m := insertKey m "device" (.device args.device)
  let m := insertKey m "device_str" (.str args.device)
  let m ← match alookup m "loaders" with
    | none => throw (.keyError "loaders")
    | some (.dict l) =>
        pure (insertKey m "loaders"
          (.dict (insertKey l "batch_size" (.int args.batch_size))))
    | some _ => throw .typeError
  let m := insertKey m "precision" (.str args.precision)
  let m := insertKey m "channels_last" (.int args.channels_last)
  let m := insertKey m "jit" (.bool args.jit)
  let m := insertKey m "profile" (.bool args.profile)
  let m := insertKey m "num_iter" (.int args.num_iter)
  let m := insertKey m "num_warmup" (.int args.num_warmup)
  let m := insertKey m "nv_fuser" (.bool args.nv_fuser)
  let m := insertKey m "ipex" (.bool args.ipex)
  return Y.dict m

/-- config.py `load_config` (lines 11-51), starting after `yaml.safe_load`:
given the parsed YAML value, run the device block and then the overrides.
A YAML document that is not a mapping has no `.get` attribute
(`AttributeError` at line 28). -/
def loadConfig (cudaAvailable : Bool) (args : Args) (yaml : Y) :
    Except PyErr Y :=
  match yaml with
  | .dict m =>
    match deviceBlock cudaAvailable (alookup m "device") with
    | .error e => .error e
    | .ok _ => overrideLoad args m
  | _ => .error .attributeError

/-- The top-level keys that `load_config` writes (config.py lines 40-50). -/
def cliKeys : List String :=
  ["device", "device_str", "loaders", "precision", "channels_last", "jit",
   "profile", "num_iter", "num_warmup", "nv_fuser", "ipex"]

/-- The `device` entry of a YAML mapping, if present, is null or a string —
the shapes on which config.py line 31 (`device_str.startswith`) does not
raise. -/
def deviceEntryOk (m : List (String × Y)) : Prop :=
  ∀ v, alookup m "device" = some v → v = Y.null ∨ ∃ s, v = Y.str s

/-! ### The training loop of `UNet3DTrainer.train` (trainer.py lines 187-375)

Per-iteration framework calls are recorded as a trace of `Event`s; wall-clock
time is an oracle giving each iteration's measured elapsed time (`dur`) and
channels-last-conversion time (`clDur`).  The three copy-pasted code paths
(xpu-profiled lines 204-250, generic-profiled lines 252-313, unprofiled lines
315-366) each become one per-iteration body function. -/

/-- Observable per-iteration actions of the training loop.  `profEvent` marks
invocations of a framework profiling API; everything else is the shared
training logic.  `clConvert b` is the channels-last input conversion attempt,
`b` telling whether it succeeded (`False` means the `RuntimeError` fallback
of trainer.py lines 280-282 / 329-331 was taken and the unconverted input is
used).  `recDuration d` is the computation of the per-iteration elapsed time
(`duration = ...`, lines 226 / 303 / 357). -/
inductive Event where
  | toDevice
  | clConvert (ok : Bool)
  | autocast (dev : String) (dtype : String)
  | forwardPass
  | lossUpdate
  | zeroGrad
  | backward
  | optStep
  | outputCpu
  | lossCpu
  | sync (dev : String)
  | recDuration (d : ℚ)
  | profEvent (tag : String)
  deriving DecidableEq, Repr

/-- The configuration fields `UNet3DTrainer.train` reads (all placed into
`config` by `load_config`). -/
structure Cfg where
  profile : Bool
  device_str : String
  channels_last : Int
  precision : String
  num_iter : Int
  num_warmup : Int
  batch_size : Int
  deriving Repr

/-- trainer.py line 203: `datatype = torch.float16 if precision == "float16"
else torch.bfloat16 if precision == "bfloat16" else torch.float`. -/
def dtypeOf (precision : String) : String :=
  if precision = "float16" then "float16"
  else if precision = "bfloat16" then "bfloat16"
  else "float"

/-- trainer.py lines 276 / 325: the channels-last input conversion is
attempted exactly when `config['channels_last']` is truthy (an int from
argparse) and `config['device_str'] != "xpu"`. -/
def clAttempted (cfg : Cfg) : Bool :=
  (cfg.channels_last != 0) && (cfg.device_str != "xpu")

/-- Per-iteration body of the xpu-profiled path (trainer.py lines 205-250),
run when `config['profile']` and `config['device_str'] == "xpu"`.  Returns
the event trace, the recorded duration (line 226: `time.time() - start_time`,
with no channels-last correction — this path has no conversion block), and
the error the body raises after the perf-counting block: line 232 reads
`args.profile`, but `args` is not bound anywhere in trainer.py, so every
iteration of this path raises `NameError` there. -/
def iterBody1 (cfg : Cfg) (convFail : Bool) (dur clDur : ℚ) :
    List Event × ℚ × Option PyErr :=
  ([Event.toDevice,
    Event.profEvent "autograd_profiler_legacy",
    Event.autocast "xpu" (dtypeOf cfg.precision),
    Event.forwardPass,
    Event.lossUpdate,
    Event.zeroGrad,
    Event.backward,
    Event.optStep,
    Event.outputCpu,
    Event.lossCpu,
    Event.sync "xpu",
    Event.recDuration dur],
   dur, some .nameError)

/-- Per-iteration body of the generic-profiled path (trainer.py lines
267-313), run when `config['profile']` and `config['device_str'] != "xpu"`.
The recorded duration is `time.time() - start_time - cl_duration`
(line 303); when the conversion block is not entered, the measured
`cl_duration` is the elapsed time of a no-op, modelled as `0`.
`p.step()` (line 304) is the per-iteration profiler call. -/
def iterBody2 (cfg : Cfg) (convFail : Bool) (dur clDur : ℚ) :
    List Event × ℚ × Option PyErr :=
  let clEvents := if clAttempted cfg then [Event.clConvert (!convFail)] else []
  let clD := if clAttempted cfg then clDur else 0
  let acDev := if cfg.device_str = "cuda" then "cuda" else "cpu"
  let syncEvents :=
    if cfg.device_str = "cuda" then [Event.sync "cuda"] else []
  let d := dur - clD
  ([Event.toDevice] ++ clEvents ++
   [Event.autocast acDev (dtypeOf cfg.precision),
    Event.forwardPass,
    Event.lossUpdate,
    Event.zeroGrad,
    Event.backward,
    Event.optStep,
    Event.outputCpu,
    Event.lossCpu] ++ syncEvents ++
   [Event.recDuration d, Event.profEvent "profiler_step"],
   d, none)

/-- Per-iteration body of the unprofiled path (trainer.py lines 316-366),
run when `config['profile']` is false. -/
def iterBody3 (cfg : Cfg) (convFail : Bool) (dur clDur : ℚ) :
    List Event × ℚ × Option PyErr :=
  let clEvents := if clAttempted cfg then [Event.clConvert (!convFail)] else []
  let clD := if clAttempted cfg then clDur else 0
  let acDev :=
    if cfg.device_str = "cuda" then "cuda"
    else if cfg.device_str = "xpu" then "xpu"
    else "cpu"
  let syncEvents :=
    if cfg.device_str = "cuda" then [Event.sync "cuda"]
    else if cfg.device_str = "xpu" then [Event.sync "xpu"]
    else []
  let d := dur - clD
  ([Event.toDevice] ++ clEvents ++
   [Event.autocast acDev (dtypeOf cfg.precision),
    Event.forwardPass,
    Event.lossUpdate,
    Event.zeroGrad,
    Event.backward,
    Event.optStep,
    Event.outputCpu,
    Event.lossCpu] ++ syncEvents ++
   [Event.recDuration d],
   d, none)

/-- The xpu-profiled body with trainer.py line 232 repaired to read
`self.config['profile']` (the value `load_config` stores from `args.profile`)
instead of the unbound global `args` — the evident intent of the copy-pasted
line.  At `num_iterations == profile_len` it dumps the profiler tables and
chrome trace (lines 233-246), which are further profiling-API calls. -/
def iterBody1Fixed (cfg : Cfg) (profLen i : Int) (convFail : Bool)
    (dur clDur : ℚ) : List Event × ℚ × Option PyErr :=
  let dumpEvents :=
    if cfg.profile && (i == profLen) then
      [Event.profEvent "save_profile_tables",
       Event.profEvent "export_chrome_trace"]
    else []
  ([Event.toDevice,
    Event.profEvent "autograd_profiler_legacy",
    Event.autocast "xpu" (dtypeOf cfg.precision),
    Event.forwardPass,
    Event.lossUpdate,
    Event.zeroGrad,
    Event.backward,
    Event.optStep,
    Event.outputCpu,
    Event.lossCpu,
    Event.sync "xpu",
    Event.recDuration dur] ++ dumpEvents,
   dur, none)

/-- Erase the profiling-API events from a trace, keeping the shared training
logic. -/
def eraseProf (tr : List Event) : List Event :=
  tr.filter fun e => match e with | .profEvent _ => false | _ => true

/-- Path dispatch of `UNet3DTrainer.train` (trainer.py lines 204, 252, 315):
xpu-profiled when `profile and device_str == "xpu"`, generic-profiled when
`profile and device_str != "xpu"`, unprofiled otherwise. -/
def trainStep (cfg : Cfg) (convFail : Bool) (dur clDur : ℚ) :
    List Event × ℚ × Option PyErr :=
  if cfg.profile = true ∧ cfg.device_str = "xpu" then
    iterBody1 cfg convFail dur clDur
  else if cfg.profile = true then
    iterBody2 cfg convFail dur clDur
  else
    iterBody3 cfg convFail dur clDur

/-- Oracles for one run of `train`: for the iteration whose `num_iterations`
value is `i`, the measured iteration time, the measured channels-last
conversion time, and whether the input conversion raised `RuntimeError`. -/
structure RunEnv where
  dur : Int → ℚ
  clDur : Int → ℚ
  convFail : Int → Bool

/-- The recorded duration of the iteration with `num_iterations = i`
(the value printed by trainer.py lines 227 / 305 / 358). -/
def recordedDur (cfg : Cfg) (env : RunEnv) (i : Int) : ℚ :=
  (trainStep cfg (env.convFail i) (env.dur i) (env.clDur i)).2.1

/-- Mutable trainer state that `train`/`fit` touch (trainer.py lines
154-155, 132). -/
structure TrainerSt where
  num_iterations : Int
  num_epochs : Int
  max_num_epochs : Int
  deriving Repr, DecidableEq

/-- What one completed call of `train` returns and prints (trainer.py lines
368-375): the return value `True`, the updated state, and the printed
`total_time`, `total_count`, latency and throughput. -/
structure TrainRes where
  ret : Bool
  st : TrainerSt
  total_time : ℚ
  total_count : Nat
  latency : ℚ
  perf : ℚ
  deriving Repr, DecidableEq

/-- The `for t in self.loaders['train']` loop shared by all three paths
(with the identical counting/break/increment code of trainer.py lines
228-231+247-250 / 306-313 / 359-366): `rem` is the number of batches the
loader still yields, `i` is `self.num_iterations`, `tt`/`tc` are
`total_time`/`total_count`.  Per iteration: run the body, print the
duration, add it to the totals when `num_warmup <= i < last_iter`, then
raise the body's pending error if any (line 232 sits after the counting
block), break when `i >= num_iter`, else increment `num_iterations`. -/
def loopGo (cfg : Cfg) (env : RunEnv) (lastIter : Int) :
    Nat → Int → ℚ → Nat → Except PyErr (ℚ × Nat × Int)
  | 0, i, tt, tc => .ok (tt, tc, i)
  | rem + 1, i, tt, tc =>
    let step := trainStep cfg (env.convFail i) (env.dur i) (env.clDur i)
    let d := step.2.1
    let counted := cfg.num_warmup ≤ i ∧ i < lastIter
    let tt' := if counted then tt + d else tt
    let tc' := if counted then tc + 1 else tc
    (step.2.2).elim
      (if cfg.num_iter ≤ i then .ok (tt', tc', i)
       else loopGo cfg env lastIter rem (i + 1) tt' tc')
      (fun e => .error e)

/-- `UNet3DTrainer.train` (trainer.py lines 187-375).  `len` is
`len(self.loaders['train'])`; `last_iter = min(len, num_iter) - 1`
(line 202).  After the loop (lines 368-374): `avg_time = total_time /
total_count` raises `ZeroDivisionError` when `total_count == 0`; `latency =
avg_time / batch_size * 1000` raises when `batch_size == 0`; `perf =
batch_size / avg_time` raises when `avg_time == 0.0`; finally `return True`
(line 375). -/
def trainRun (cfg : Cfg) (env : RunEnv) (len : Nat) (st : TrainerSt) :
    Except PyErr TrainRes := do
  let lastIter : Int := min (len : Int) cfg.num_iter - 1
  let trip ← loopGo cfg env lastIter len st.num_iterations 0 0
  let tt := trip.1
  let tc := trip.2.1
  if tc = 0 then throw .zeroDivisionError
  else
    let avg : ℚ := tt / (tc : ℚ)
    if cfg.batch_size = 0 then throw .zeroDivisionError
    else
      let latency := avg / (cfg.batch_size : ℚ) * 1000
      if avg = 0 then throw .zeroDivisionError
      else
        return { ret := true,
                 st := { st with num_iterations := trip.2.2 },
                 total_time := tt, total_count := tc,
                 latency := latency,
                 perf := (cfg.batch_size : ℚ) / avg }

/-- The epoch loop of `UNet3DTrainer.fit` (trainer.py lines 175-185),
instrumented with the number of `self.train()` calls made: `for _ in
range(self.num_epochs, self.max_num_epochs)`, stop and return as soon as
`train()` returns a truthy value, else increment `num_epochs`. -/
def fitGo (cfg : Cfg) (env : RunEnv) (len : Nat) :
    Nat → TrainerSt → Nat → Except PyErr (Nat × TrainerSt)
  | 0, st, calls => .ok (calls, st)
  | k + 1, st, calls =>
    match trainRun cfg env len st with
    | .error e => .error e
    | .ok res =>
      if res.ret then .ok (calls + 1, res.st)
      else fitGo cfg env len k
        { res.st with num_epochs := res.st.num_epochs + 1 } (calls + 1)

/-- `UNet3DTrainer.fit` (trainer.py lines 175-185): the `range` has
`max_num_epochs - num_epochs` steps. -/
def fit (cfg : Cfg) (env : RunEnv) (len : Nat) (st : TrainerSt) :
    Except PyErr (Nat × TrainerSt) :=
  fitGo cfg env len (st.max_num_epochs - st.num_epochs).toNat st 0

/-! ### `create_trainer` (trainer.py lines 20-80) and checkpoints -/

/-- A model's named weights. -/
abbrev StateDict := List (String × ℚ)

/-- A framework model, possibly wrapped in `nn.DataParallel`
(trainer.py line 26). -/
inductive PyModel where
  | base (sd : StateDict)
  | dataParallel (inner : PyModel)
  deriving Repr

/-- `model.state_dict()`: an `nn.DataParallel` wrapper reports its
submodule's entries under a `module.` prefix (the reason for the branch in
`_save_checkpoint`, see the comment at trainer.py lines 463-464). -/
def stateDictOf : PyModel → StateDict
  | .base sd => sd
  | .dataParallel inner =>
      (stateDictOf inner).map fun p => ("module." ++ p.1, p.2)

/-- The `try/except RuntimeError` wrapper around a channels-last-3d
conversion, shared verbatim by trainer.py lines 34-39 (the model in
`create_trainer`) and lines 277-282 / 326-331 (the input batch in `train`):
on success use the converted value, on `RuntimeError` log and keep the
original value, and let any other exception propagate.  The returned `Bool`
tells which of the two prints ran (`--- use NDHWC format` vs the logged
fallback). -/
def tryToChannelsLast3d {α : Type} (conv : α → Except PyErr α) (x : α) :
    Except PyErr (α × Bool) :=
  match conv x with
  | .ok y => .ok (y, true)
  | .error .runtimeError => .ok (x, false)
  | .error e => .error e

/-- `torch.device.type`: the part of the device string before `:`
(trainer.py line 25 reads `device.type == 'cpu'`); any non-device value has
no `type` attribute. -/
def devTypeE : Y → Except PyErr String
  | .device d => .ok ((d.splitOn ":").headD d)
  | _ => .error .attributeError

/-- trainer.py line 33 compares the `torch.device` object against the
string `"xpu"` with `!=`.  A `torch.device` never equals a `str` in Python
(`torch.device.__eq__` only accepts devices), so this guard is always
true — the model conversion is attempted on every device once
`channels_last` is truthy. -/
def deviceNeXpuStr (v : Y) : Bool := true

/-- External framework facilities `create_trainer` calls.  `get_model`,
`get_loss_criterion`, `get_evaluation_metric`, `get_train_loaders`,
`create_optimizer`, `create_lr_scheduler` and `torch.xpu.optimize` live in
modules outside the two source files and are treated as total; `convModel`
is `model.to(memory_format=torch.channels_last_3d)` (line 35), whose
outcome decides the `try/except`. -/
structure ExtEnv where
  cudaDeviceCount : Nat
  getModel : Y → PyModel
  convModel : PyModel → Except PyErr PyModel

/-- trainer.py lines 25-26: wrap in `nn.DataParallel` when
`torch.cuda.device_count() > 1 and not device.type == 'cpu'`. -/
def dpWrapStep (env : ExtEnv) (dev : Y) (model : PyModel) :
    Except PyErr PyModel :=
  if 1 < env.cudaDeviceCount then do
    let ty ← devTypeE dev
    pure (if ty = "cpu" then model else PyModel.dataParallel model)
  else pure model

/-- trainer.py lines 33-39: the guarded channels-last conversion of the
model, with its `try/except RuntimeError`. -/
def clModelStep (env : ExtEnv) (dev cl : Y) (model : PyModel) :
    Except PyErr PyModel :=
  if cl.truthy && deviceNeXpuStr dev then do
    let r ← tryToChannelsLast3d env.convModel model
    pure r.1
  else pure model

/-- trainer.py lines 22-39: `config['model']` (line 22), `config['device']`
(line 24), the `nn.DataParallel` wrap (lines 25-26), `model.to(device)`
(line 31, a no-op on the abstract model state), and the guarded
channels-last conversion (`config['channels_last']`, lines 33-39).
Returns the built model together with the `config['device']` value read at
line 24. -/
def buildModel (env : ExtEnv) (m : List (String × Y)) :
    Except PyErr (PyModel × Y) := do
  let modelCfg ← keyOf m "model"
  let model := env.getModel modelCfg
  let dev ← keyOf m "device"
  let model ← dpWrapStep env dev model
  let cl ← keyOf m "channels_last"
  let model ← clModelStep env dev cl model
  return (model, dev)

/-- `create_trainer(config)` (trainer.py lines 20-80), modelled up to the
`UNet3DTrainer(...)` construction: after the model build (lines 22-39),
`config['optimizer']` (line 53), `config['precision']` (line 55, only when
`str(config['device']) == "xpu"`, lines 54-56), `config.get('lr_scheduler',
None)` (line 60) and `config['trainer']` (line 62) are read in source
order, and a missing key raises `KeyError`.  The external constructor calls
(loss, metric, loaders, optimizer, `torch.xpu.optimize`, scheduler) are
total and do not touch our abstract model state.  Returns the built model
and the trainer section. -/
def createTrainer (env : ExtEnv) (m : List (String × Y)) :
    Except PyErr (PyModel × List (String × Y)) := do
  let md ← buildModel env m
  let _optCfg ← keyOf m "optimizer"
  let _ ←
    if md.2.pyStr = "xpu" then do
      let _prec ← keyOf m "precision"
      pure ()
    else pure ()
  let _lr := (alookup m "lr_scheduler").getD Y.null
  let tcfg ← keyOf m "trainer"
  let tdict ← match tcfg with
    | Y.dict entries => pure entries
    | _ => throw PyErr.attributeError
  return (md.1, tdict)

/-- Evaluation scores and `best_eval_score`.  The Python code stores floats
but only ever initialises them to `float('-inf')` / `float('+inf')` and
compares them with `<` / `>`, so scores are modelled as rationals extended
with both infinities (`⊥` is `-inf`, `⊤` is `+inf`). -/
abbrev Score := WithBot (WithTop ℚ)

/-- Values a checkpoint record can hold (trainer.py lines 473-479). -/
inductive CkptVal where
  | int (n : Int)
  | score (s : Score)
  | sd (d : StateDict)
  | osd (o : List (String × ℚ))

/-- The trainer attributes `_save_checkpoint` reads. -/
structure TrainerFields where
  model : PyModel
  optimizer_state : List (String × ℚ)
  num_epochs : Int
  num_iterations : Int
  best_eval_score : Score
  checkpoint_dir : String

/-- trainer.py lines 465-468: the state dict put into a checkpoint —
`self.model.module.state_dict()` under `nn.DataParallel`, otherwise
`self.model.state_dict()`. -/
def savedStateDict : PyModel → StateDict
  | .dataParallel inner => stateDictOf inner
  | m => stateDictOf m

/-- The record `_save_checkpoint` builds (trainer.py lines 473-479). -/
def checkpointRecord (t : TrainerFields) : List (String × CkptVal) :=
  [("num_epochs", .int (t.num_epochs + 1)),
   ("num_iterations", .int t.num_iterations),
   ("model_state_dict", .sd (savedStateDict t.model)),
   ("best_eval_score", .score t.best_eval_score),
   ("optimizer_state_dict", .osd t.optimizer_state)]

/-- Modelled from the spec: `utils.save_checkpoint` lives in
`pytorch3dunet/unet3d/utils.py`, which is not among the given source files.
Per the spec's section 6, it serializes the record to
`last_checkpoint.pytorch` in the checkpoint directory, plus a best-score
variant when `is_best` holds.  The result is the list of (path, record)
writes it performs. -/
def saveCheckpointWrites (state : List (String × CkptVal)) (isBest : Bool)
    (checkpointDir : String) : List (String × List (String × CkptVal)) :=
  [(checkpointDir ++ "/last_checkpoint.pytorch", state)] ++
    (if isBest then [(checkpointDir ++ "/best_checkpoint.pytorch", state)]
     else [])

/-- `UNet3DTrainer._save_checkpoint` (trainer.py lines 462-479). -/
def saveCheckpointMethod (t : TrainerFields) (isBest : Bool) :
    List (String × List (String × CkptVal)) :=
  saveCheckpointWrites (checkpointRecord t) isBest t.checkpoint_dir

/-- trainer.py lines 143-147: `best_eval_score` starts at `-inf` when
higher scores are better, else at `+inf`. -/
def initBestEvalScore (higher : Bool) : Score :=
  if higher then ⊥ else ⊤

/-- `UNet3DTrainer._is_best_eval_score` (trainer.py lines 450-460): compute
`is_best` by a strict comparison in the configured direction, update
`best_eval_score` when it holds, and return `is_best`. -/
def isBestStep (higher : Bool) (best s : Score) : Bool × Score :=
  let isB := if higher then decide (best < s) else decide (s < best)
  (isB, if isB then s else best)

/-- Fold `_is_best_eval_score` over a sequence of validation scores. -/
def runBestScores (higher : Bool) : List Score → Score → Score
  | [], b => b
  | s :: rest, b => runBestScores higher rest (isBestStep higher b s).2

/-! ### Trace checkers and concrete inputs used by the theorems below -/

/-- A `recDuration` event occurs somewhere in the list. -/
def durAfterHere : List Event → Bool
  | [] => false
  | .recDuration _ :: _ => true
  | _ :: r => durAfterHere r

/-- A `sync` event occurs, with a `recDuration` event after it and no
`recDuration` event before it. -/
def syncBeforeDur : List Event → Bool
  | [] => false
  | .sync _ :: r => durAfterHere r
  | .recDuration _ :: _ => false
  | _ :: r => syncBeforeDur r

/-- After the first `optStep` event a `sync` event occurs, and the first
`recDuration` event after that `optStep` comes after the `sync`: the device
synchronize call sits between the optimizer step and the computation of the
per-iteration elapsed time. -/
def stepSyncDur : List Event → Bool
  | [] => false
  | .optStep :: r => syncBeforeDur r
  | _ :: r => stepSyncDur r

/-- The pure override chain of config.py lines 38-50, given the parsed
YAML mapping `m` whose `loaders` entry is the mapping `l`. -/
def loadedOverrides (args : Args) (m l : List (String × Y)) :
    List (String × Y) :=
  let m1 := insertKey m "device" (.device args.device)
  let m2 := insertKey m1 "device_str" (.str args.device)
  let m3 := insertKey m2 "loaders"
    (.dict (insertKey l "batch_size" (.int args.batch_size)))
  let m4 := insertKey m3 "precision" (.str args.precision)
  let m5 := insertKey m4 "channels_last" (.int args.channels_last)
  let m6 := insertKey m5 "jit" (.bool args.jit)
  let m7 := insertKey m6 "profile" (.bool args.profile)
  let m8 := insertKey m7 "num_iter" (.int args.num_iter)
  let m9 := insertKey m8 "num_warmup" (.int args.num_warmup)
  let m10 := insertKey m9 "nv_fuser" (.bool args.nv_fuser)
  insertKey m10 "ipex" (.bool args.ipex)

/-- A YAML mapping whose `loaders` entry is a scalar, not a mapping. -/
def c3yaml : Y := Y.dict [("loaders", Y.int 0)]

/-- A well-formed small YAML mapping. -/
def c3m : List (String × Y) := [("loaders", Y.dict []), ("foo", Y.int 7)]

/-- `c3m` with a `device` entry added. -/
def c8m1 : List (String × Y) :=
  [("loaders", Y.dict []), ("foo", Y.int 7), ("device", Y.str "cuda:0")]

/-- The value `load_config` returns on `c8m1` with CUDA available. -/
def c8r1 : Y :=
  match loadConfig true defaultArgs (Y.dict c8m1) with
  | .ok r => r
  | .error _ => Y.null

/-- The value `load_config` returns on `c3m` with CUDA unavailable. -/
def c8r2 : Y :=
  match loadConfig false defaultArgs (Y.dict c3m) with
  | .ok r => r
  | .error _ => Y.null

/-- An xpu-profiled configuration. -/
def c2cfg : Cfg :=
  { profile := true, device_str := "xpu", channels_last := 1,
    precision := "float32", num_iter := 200, num_warmup := 20,
    batch_size := 1 }

/-- An unprofiled CPU configuration with `num_iter = 2`, `num_warmup = 0`. -/
def c9cfg : Cfg :=
  { profile := false, device_str := "cpu", channels_last := 0,
    precision := "float32", num_iter := 2, num_warmup := 0,
    batch_size := 1 }

/-- A cuda-profiled configuration. -/
def c7cfg : Cfg :=
  { profile := true, device_str := "cuda", channels_last := 1,
    precision := "float32", num_iter := 200, num_warmup := 20,
    batch_size := 1 }

/-- Time oracles: every iteration takes one second, conversions are free and
never fail. -/
def unitEnv : RunEnv := ⟨fun _ => 1, fun _ => 0, fun _ => false⟩

/-- Fresh trainer state with room for five epochs. -/
def c9st : TrainerSt := ⟨0, 0, 5⟩

/-- The result of `train` on `c9cfg` from `c9st` with a 3-batch loader:
one counted iteration of one second, latency 1000 ms, throughput 1 fps. -/
def c9res : TrainRes :=
  { ret := true, st := ⟨2, 0, 5⟩, total_time := 1, total_count := 1,
    latency := 1000, perf := 1 }

/-- A trivial external environment for `create_trainer`. -/
def extEnv0 : ExtEnv :=
  { cudaDeviceCount := 0,
    getModel := fun _ => PyModel.base [],
    convModel := fun mm => .ok mm }

/-! ## Helper lemmas -/

@[simp] theorem except_bind_ok {ε α β : Type} (x : α) (f : α → Except ε β) :
    (Except.ok x : Except ε α) >>= f = f x := rfl

@[simp] theorem except_bind_err {ε α β : Type} (e : ε) (f : α → Except ε β) :
    (Except.error e : Except ε α) >>= f = Except.error e := rfl

@[simp] theorem except_pure_eq_ok {ε α : Type} (x : α) :
    (pure x : Except ε α) = Except.ok x := rfl

@[simp] theorem except_throw_eq_err {ε α : Type} (e : ε) :
    (throw e : Except ε α) = Except.error e := rfl

@[simp] theorem except_map_ok {ε α β : Type} (f : α → β) (x : α) :
    f <$> (Except.ok x : Except ε α) = Except.ok (f x) := rfl

@[simp] theorem except_map_err {ε α β : Type} (f : α → β) (e : ε) :
    f <$> (Except.error e : Except ε α) = Except.error e := rfl

theorem alookup_eraseKey_self {β : Type} (m : List (String × β)) (k : String) :
    alookup (eraseKey m k) k = none := by
  induction m with
  | nil => rfl
  | cons p rest ih =>
    obtain ⟨k', v⟩ := p
    by_cases h : k' = k
    · simp [eraseKey, h, ih]
    · simp [eraseKey, h, alookup, ih]

theorem alookup_eraseKey_ne {β : Type} (m : List (String × β))
    (k k' : String) (h : k' ≠ k) :
    alookup (eraseKey m k) k' = alookup m k' := by
  induction m with
  | nil => rfl
  | cons p rest ih =>
    obtain ⟨k₀, v⟩ := p
    by_cases h₀ : k₀ = k
    · have hne : ¬ (k₀ = k') := by
        intro hh
        exact h (hh ▸ h₀)
      rw [show eraseKey ((k₀, v) :: rest) k = eraseKey rest k from by
            simp [eraseKey, h₀]]
      rw [ih]
      simp [alookup, hne]
    · by_cases h₁ : k₀ = k'
      · simp [eraseKey, alookup, h₀, h₁, h]
      · simp [eraseKey, alookup, h₀, h₁, ih]

theorem alookup_append {β : Type} (a b : List (String × β)) (k : String) :
    alookup (a ++ b) k =
      match alookup a k with
      | some v => some v
      | none => alookup b k := by
  induction a with
  | nil => rfl
  | cons p rest ih =>
    obtain ⟨k', v⟩ := p
    by_cases h : k' = k
    · simp [alookup, h]
    · simp [alookup, h, ih]

@[simp] theorem alookup_insertKey_self {β : Type} (m : List (String × β))
    (k : String) (v : β) : alookup (insertKey m k v) k = some v := by
  unfold insertKey
  rw [alookup_append, alookup_eraseKey_self]
  simp [alookup]

@[simp] theorem alookup_insertKey_ne {β : Type} (m : List (String × β))
    (k k' : String) (v : β) (h : k' ≠ k) :
    alookup (insertKey m k v) k' = alookup m k' := by
  unfold insertKey
  rw [alookup_append, alookup_eraseKey_ne m k k' h]
  cases hm : alookup m k' with
  | some w => rfl
  | none =>
    simp [alookup]
    exact fun hh => h hh.symm

theorem le_runBestScores_true (l : List Score) (b : Score) :
    b ≤ runBestScores true l b := by
  induction l generalizing b with
  | nil => exact le_refl b
  | cons s rest ih =>
    refine le_trans ?_ (ih (isBestStep true b s).2)
    by_cases h : b < s
    · simp [isBestStep, h]
      exact le_of_lt h
    · simp [isBestStep, h]

theorem runBestScores_false_le (l : List Score) (b : Score) :
    runBestScores false l b ≤ b := by
  induction l generalizing b with
  | nil => exact le_refl b
  | cons s rest ih =>
    refine le_trans (ih (isBestStep false b s).2) ?_
    by_cases h : s < b
    · simp [isBestStep, h]
      exact le_of_lt h
    · simp [isBestStep, h]

/-! ## C10 — `best_eval_score` is monotone in the configured direction -/

/-- C10: `best_eval_score` never gets worse.  It starts at `-inf` when
`eval_score_higher_is_better` and at `+inf` otherwise; each
`_is_best_eval_score(s)` call leaves the maximum (resp. minimum) of the
previous best and `s`, returns `True` exactly when `s` is strictly better
than the previous best, and across any sequence of calls the best score is
monotone in the configured direction. -/
theorem best_eval_score_monotone (higher : Bool) (b s : Score)
    (l : List Score) :
    initBestEvalScore true = ⊥
    ∧ initBestEvalScore false = ⊤
    ∧ (isBestStep true b s).2 = max b s
    ∧ (isBestStep false b s).2 = min b s
    ∧ ((isBestStep higher b s).1 = true ↔
        (if higher = true then b < s else s < b))
    ∧ (if higher = true then b ≤ runBestScores higher l b
       else runBestScores higher l b ≤ b) := by
  refine ⟨rfl, rfl, ?_, ?_, ?_, ?_⟩
  · by_cases h : b < s
    · simp [isBestStep, h, max_eq_right (le_of_lt h)]
    · simp [isBestStep, h, max_eq_left (le_of_not_lt h)]
  · by_cases h : s < b
    · simp [isBestStep, h, min_eq_right (le_of_lt h)]
    · simp [isBestStep, h, min_eq_left (le_of_not_lt h)]
  · cases higher <;> simp [isBestStep]
  · cases higher <;> simp [le_runBestScores_true, runBestScores_false_le]

/-! ## C6 — the checkpoint record -/

/-- C6: every checkpoint written by `_save_checkpoint` is a record with
exactly the keys `num_epochs` (the trainer's `num_epochs + 1`),
`num_iterations`, `model_state_dict` (the inner module's state dict under
`DataParallel`, else the model's own), `best_eval_score` and
`optimizer_state_dict`, written to `last_checkpoint.pytorch` in
`checkpoint_dir`, plus a best-score variant when `is_best` holds. -/
theorem checkpoint_record_shape (t : TrainerFields) (isBest : Bool) :
    saveCheckpointMethod t isBest =
      [(t.checkpoint_dir ++ "/last_checkpoint.pytorch", checkpointRecord t)]
        ++ (if isBest then
              [(t.checkpoint_dir ++ "/best_checkpoint.pytorch",
                checkpointRecord t)]
            else [])
    ∧ (checkpointRecord t).map Prod.fst =
        ["num_epochs", "num_iterations", "model_state_dict",
         "best_eval_score", "optimizer_state_dict"]
    ∧ alookup (checkpointRecord t) "num_epochs" =
        some (.int (t.num_epochs + 1))
    ∧ alookup (checkpointRecord t) "num_iterations" =
        some (.int t.num_iterations)
    ∧ alookup (checkpointRecord t) "model_state_dict" =
        some (.sd (savedStateDict t.model))
    ∧ alookup (checkpointRecord t) "best_eval_score" =
        some (.score t.best_eval_score)
    ∧ alookup (checkpointRecord t) "optimizer_state_dict" =
        some (.osd t.optimizer_state)
    ∧ (∀ inner, savedStateDict (PyModel.dataParallel inner) = stateDictOf inner)
    ∧ ∀ sd, savedStateDict (PyModel.base sd) = sd := by
  refine ⟨rfl, rfl, ?_, ?_, ?_, ?_, ?_, fun inner => rfl, fun sd => rfl⟩ <;>
    simp [checkpointRecord, alookup]

/-! ## C4 — a failed channels-last conversion is caught and execution
continues with the unconverted value -/

/-- C4: whenever the channels-last-3d conversion of the model
(`create_trainer`, trainer.py lines 34-39) or of the input batch (`train`,
lines 277-282 / 326-331) raises `RuntimeError`, the `try/except` at the
conversion site catches it, the fallback is logged (the `clConvert false`
event), no exception escapes, and execution continues with the unconverted
value. -/
theorem channels_last_fallback {α : Type} (conv : α → Except PyErr α)
    (x : α) (h : conv x = .error .runtimeError) :
    tryToChannelsLast3d conv x = .ok (x, false)
    ∧ (∀ cfg d cl, (iterBody3 cfg true d cl).2.2 = none
        ∧ (iterBody2 cfg true d cl).2.2 = none)
    ∧ ∀ cfg d cl, clAttempted cfg = true →
        Event.clConvert false ∈ (iterBody3 cfg true d cl).1 := by
  refine ⟨?_, fun cfg d cl => ⟨rfl, rfl⟩, ?_⟩
  · unfold tryToChannelsLast3d
    rw [h]
  · intro cfg d cl h1
    simp [iterBody3, h1]

theorem channels_last_fallback_witness :
    (fun _ : PyModel => (Except.error PyErr.runtimeError : Except PyErr PyModel))
        (PyModel.base []) = .error .runtimeError
    ∧ tryToChannelsLast3d
        (fun _ : PyModel => (Except.error PyErr.runtimeError : Except PyErr PyModel))
        (PyModel.base []) = .ok (PyModel.base [], false) :=
  ⟨rfl, (channels_last_fallback _ (PyModel.base []) rfl).1⟩

/-! ## C7 — a device synchronize precedes every timing measurement -/

/-- C7: in every iteration of every code path of `train`, when the
configured device is `cuda` or `xpu`, a device synchronize is issued after
the optimizer step and before the per-iteration elapsed time is computed
(trainer.py lines 221-226, 297-303, 349-357). -/
theorem sync_before_timing (cfg : Cfg) (cf : Bool) (d cl : ℚ)
    (h : cfg.device_str = "cuda" ∨ cfg.device_str = "xpu") :
    stepSyncDur (trainStep cfg cf d cl).1 = true := by
  obtain ⟨p, ds, cls, prec, ni, nw, bs⟩ := cfg
  rcases h with h | h <;> subst h <;> cases p <;>
    by_cases hc : (cls != 0) = true <;>
      simp [trainStep, iterBody1, iterBody2, iterBody3, clAttempted, hc,
        stepSyncDur, syncBeforeDur, durAfterHere]

theorem sync_before_timing_witness :
    (c7cfg.device_str = "cuda" ∨ c7cfg.device_str = "xpu")
    ∧ stepSyncDur (trainStep c7cfg false 1 0).1 = true :=
  ⟨Or.inl rfl, sync_before_timing c7cfg false 1 0 (Or.inl rfl)⟩

/-! ## C2 — the three code paths of `train` -/

/-- C2: the xpu-profiled path is NOT equivalent to the other two paths —
trainer.py line 232 reads `args.profile` but `args` is unbound in
trainer.py, so every iteration of that path raises `NameError` (first
conjuncts: at a concrete xpu-profiled configuration the per-iteration body
ends in `NameError` and a whole run of `train` raises it, while the
unprofiled body does not).  The equivalence the spec describes does hold for
the rest of the logic: with line 232 repaired to read the config's
`profile` flag (`iterBody1Fixed`), the xpu-profiled body agrees with the
unprofiled body on xpu configurations once profiling-API events are erased,
and the generic-profiled body agrees with the unprofiled body on non-xpu
configurations — same events, same recorded duration, no error. -/
theorem xpu_path_name_error :
    (iterBody1 c2cfg false 1 0).2.2 = some PyErr.nameError
    ∧ trainRun c2cfg unitEnv 5 ⟨0, 0, 1⟩ = .error PyErr.nameError
    ∧ (∀ cfg profLen i cf d cl, cfg.device_str = "xpu" →
        eraseProf (iterBody1Fixed cfg profLen i cf d cl).1 =
            eraseProf (iterBody3 cfg cf d cl).1
        ∧ (iterBody1Fixed cfg profLen i cf d cl).2.1 =
            (iterBody3 cfg cf d cl).2.1
        ∧ (iterBody1Fixed cfg profLen i cf d cl).2.2 = none
        ∧ (iterBody3 cfg cf d cl).2.2 = none)
    ∧ ∀ cfg cf d cl, cfg.device_str ≠ "xpu" →
        eraseProf (iterBody2 cfg cf d cl).1 =
            eraseProf (iterBody3 cfg cf d cl).1
        ∧ (iterBody2 cfg cf d cl).2.1 = (iterBody3 cfg cf d cl).2.1
        ∧ (iterBody2 cfg cf d cl).2.2 = none
        ∧ (iterBody3 cfg cf d cl).2.2 = none := by
  refine ⟨rfl, rfl, ?_, ?_⟩
  · intro cfg profLen i cf d cl h
    obtain ⟨p, ds, cls, prec, ni, nw, bs⟩ := cfg
    subst h
    refine ⟨?_, ?_, rfl, rfl⟩
    · simp [iterBody1Fixed, iterBody3, eraseProf, clAttempted]
      intro a _ _ ha
      rcases ha with ha | ha <;> subst ha <;> rfl
    · simp [iterBody1Fixed, iterBody3, clAttempted]
  · intro cfg cf d cl h
    obtain ⟨p, ds, cls, prec, ni, nw, bs⟩ := cfg
    simp only [Cfg.mk.injEq] at h ⊢
    by_cases hcu : ds = "cuda" <;>
      by_cases hc : (cls != 0) = true <;>
        refine ⟨?_, ?_, rfl, rfl⟩ <;>
          simp [iterBody2, iterBody3, eraseProf, clAttempted, hcu, hc, h]

theorem deviceBlock_ok (cuda : Bool) (m : List (String × Y))
    (hd : deviceEntryOk m) :
    ∃ s, deviceBlock cuda (alookup m "device") = .ok s := by
  cases hl : alookup m "device" with
  | none => exact ⟨_, rfl⟩
  | some v =>
    rcases hd v hl with rfl | ⟨s, rfl⟩
    · exact ⟨_, rfl⟩
    · exact ⟨_, rfl⟩

theorem overrideLoad_eq (args : Args) (m l : List (String × Y))
    (hl : alookup m "loaders" = some (Y.dict l)) :
    overrideLoad args m = .ok (Y.dict (loadedOverrides args m l)) := by
  have h2 : alookup (insertKey (insertKey m "device" (Y.device args.device))
      "device_str" (Y.str args.device)) "loaders" = some (Y.dict l) := by
    rw [alookup_insertKey_ne _ _ _ _ (by decide),
      alookup_insertKey_ne _ _ _ _ (by decide), hl]
  simp only [overrideLoad, loadedOverrides]
  rw [h2]
  rfl

theorem overrideLoad_congr (args : Args) (m1 m2 : List (String × Y))
    (h : eraseKey m1 "device" = eraseKey m2 "device") :
    overrideLoad args m1 = overrideLoad args m2 := by
  have key : insertKey m1 "device" (Y.device args.device) =
      insertKey m2 "device" (Y.device args.device) := by
    unfold insertKey
    rw [h]
  unfold overrideLoad
  rw [key]

/-! ## C3 — what `load_config` returns -/

/-- C3 (amended): the claim as stated fails when the YAML's `loaders` entry
is not itself a mapping (see `load_config_loaders_scalar_cex`), and when a
present `device` entry is neither null nor a string (line 31 then raises
`AttributeError` first).  On every YAML mapping whose `loaders` entry is a
mapping and whose `device` entry, if present, is null or a string,
`load_config` returns the mapping with the command-line values written over
`loaders.batch_size`, `precision`, `channels_last`, `jit`, `profile`,
`num_iter`, `num_warmup`, `nv_fuser`, `ipex`, with `device`/`device_str`
derived solely from the `--device` flag, with every other key unchanged,
and the argparse defaults are 1, "float32", 1, False, False, 200, 20,
"cpu", False, False. -/
theorem load_config_overrides (cuda : Bool) (args : Args)
    (m l : List (String × Y))
    (hl : alookup m "loaders" = some (Y.dict l))
    (hd : deviceEntryOk m) :
    loadConfig cuda args (Y.dict m) = .ok (Y.dict (loadedOverrides args m l))
    ∧ alookup (loadedOverrides args m l) "device" =
        some (Y.device args.device)
    ∧ alookup (loadedOverrides args m l) "device_str" =
        some (Y.str args.device)
    ∧ alookup (loadedOverrides args m l) "loaders" =
        some (Y.dict (insertKey l "batch_size" (Y.int args.batch_size)))
    ∧ alookup (insertKey l "batch_size" (Y.int args.batch_size))
        "batch_size" = some (Y.int args.batch_size)
    ∧ (∀ k, k ≠ "batch_size" →
        alookup (insertKey l "batch_size" (Y.int args.batch_size)) k =
          alookup l k)
    ∧ alookup (loadedOverrides args m l) "precision" =
        some (Y.str args.precision)
    ∧ alookup (loadedOverrides args m l) "channels_last" =
        some (Y.int args.channels_last)
    ∧ alookup (loadedOverrides args m l) "jit" = some (Y.bool args.jit)
    ∧ alookup (loadedOverrides args m l) "profile" =
        some (Y.bool args.profile)
    ∧ alookup (loadedOverrides args m l) "num_iter" =
        some (Y.int args.num_iter)
    ∧ alookup (loadedOverrides args m l) "num_warmup" =
        some (Y.int args.num_warmup)
    ∧ alookup (loadedOverrides args m l) "nv_fuser" =
        some (Y.bool args.nv_fuser)
    ∧ alookup (loadedOverrides args m l) "ipex" = some (Y.bool args.ipex)
    ∧ (∀ k, k ∉ cliKeys →
        alookup (loadedOverrides args m l) k = alookup m k)
    ∧ defaultArgs =
        ⟨1, "float32", 1, false, false, 200, 20, "cpu", false, false⟩ := by
  refine ⟨?_, ?_, ?_, ?_, ?_, ?_, ?_, ?_, ?_, ?_, ?_, ?_, ?_, ?_, ?_, rfl⟩
  · obtain ⟨s, hs⟩ := deviceBlock_ok cuda m hd
    simp only [loadConfig]
    rw [hs]
    exact overrideLoad_eq args m l hl
  · simp [loadedOverrides]
  · simp [loadedOverrides]
  · simp [loadedOverrides]
  · simp
  · intro k hk
    simp [hk]
  · simp [loadedOverrides]
  · simp [loadedOverrides]
  · simp [loadedOverrides]
  · simp [loadedOverrides]
  · simp [loadedOverrides]
  · simp [loadedOverrides]
  · simp [loadedOverrides]
  · simp [loadedOverrides]
  · intro k hk
    simp only [cliKeys, List.mem_cons, List.not_mem_nil, or_false,
      not_or] at hk
    obtain ⟨h1, h2, h3, h4, h5, h6, h7, h8, h9, h10, h11⟩ := hk
    simp [loadedOverrides, h1, h2, h3, h4, h5, h6, h7, h8, h9, h10, h11]

/-- C3 counterexample: on a YAML mapping whose `loaders` entry is the
scalar `0`, `load_config` does not return the mapping — the assignment
`config['loaders']['batch_size'] = args.batch_size` (config.py line 42)
raises `TypeError` because an int does not support item assignment. -/
theorem load_config_loaders_scalar_cex :
    loadConfig true defaultArgs c3yaml = Except.error PyErr.typeError := rfl

theorem load_config_overrides_witness :
    alookup c3m "loaders" = some (Y.dict [])
    ∧ loadConfig true defaultArgs (Y.dict c3m) =
        .ok (Y.dict (loadedOverrides defaultArgs c3m []))
    ∧ alookup (loadedOverrides defaultArgs c3m []) "foo" = alookup c3m "foo"
    ∧ alookup (loadedOverrides defaultArgs c3m []) "num_iter" =
        some (Y.int 200) := by
  have hd : deviceEntryOk c3m := by
    intro v hv
    simp [c3m, alookup] at hv
  have h := load_config_overrides true defaultArgs c3m [] rfl hd
  exact ⟨rfl, h.1, h.2.2.2.2.2.2.2.2.2.2.2.2.2.2.1 "foo" (by decide),
    h.2.2.2.2.2.2.2.2.2.2.1⟩

/-! ## C8 — the YAML `device` entry and CUDA availability do not influence
the result -/

/-- C8: two runs of `load_config` with identical command-line arguments, on
YAML mappings that agree outside their top-level `device` entry, and with
arbitrary CUDA availability, return identical configurations whenever they
return: `device`/`device_str` come solely from the `--device` flag (default
"cpu", config.py lines 22 and 38-41), and neither the YAML `device` entry
nor `torch.cuda.is_available()` influences any returned value. -/
theorem device_noninterference :
    (∀ (cuda1 cuda2 : Bool) (args : Args) (m1 m2 : List (String × Y))
        (r1 r2 : Y),
      eraseKey m1 "device" = eraseKey m2 "device" →
      loadConfig cuda1 args (Y.dict m1) = .ok r1 →
      loadConfig cuda2 args (Y.dict m2) = .ok r2 → r1 = r2)
    ∧ defaultArgs.device = "cpu" := by
  refine ⟨?_, rfl⟩
  intro cuda1 cuda2 args m1 m2 r1 r2 h h1 h2
  simp only [loadConfig] at h1 h2
  cases db1 : deviceBlock cuda1 (alookup m1 "device") with
  | error e =>
    rw [db1] at h1
    cases h1
  | ok s1 =>
    rw [db1] at h1
    cases db2 : deviceBlock cuda2 (alookup m2 "device") with
    | error e =>
      rw [db2] at h2
      cases h2
    | ok s2 =>
      rw [db2] at h2
      rw [overrideLoad_congr args m1 m2 h] at h1
      rw [h1] at h2
      exact (Except.ok.injEq _ _).mp h2

theorem dpWrapStep_ok (env : ExtEnv) (dd : String) (M : PyModel) :
    ∃ M1, dpWrapStep env (Y.device dd) M = .ok M1 := by
  by_cases hcc : 1 < env.cudaDeviceCount
  · refine ⟨if (dd.splitOn ":").headD dd = "cpu" then M
            else PyModel.dataParallel M, ?_⟩
    simp [dpWrapStep, hcc, devTypeE, except_bind_ok]
  · exact ⟨M, by simp [dpWrapStep, hcc]⟩

theorem clModelStep_ok (env : ExtEnv) (dev cl : Y) (M : PyModel)
    (hconv : ∀ x, (∃ y, env.convModel x = .ok y) ∨
        env.convModel x = .error PyErr.runtimeError) :
    ∃ M2, clModelStep env dev cl M = .ok M2 := by
  by_cases htru : (cl.truthy && deviceNeXpuStr dev) = true
  · rcases hconv M with ⟨y, hy⟩ | hy
    · exact ⟨y, by simp [clModelStep, htru, tryToChannelsLast3d, hy,
        except_bind_ok]⟩
    · exact ⟨M, by simp [clModelStep, htru, tryToChannelsLast3d, hy,
        except_bind_ok]⟩
  · exact ⟨M, by simp [clModelStep, htru]⟩

theorem buildModel_ok_or_keyError (env : ExtEnv) (m : List (String × Y))
    (hdev : ∀ v, alookup m "device" = some v → ∃ dd, v = Y.device dd)
    (hconv : ∀ x, (∃ y, env.convModel x = .ok y) ∨
        env.convModel x = .error PyErr.runtimeError) :
    (∃ M, buildModel env m = .ok M) ∨
      ∃ k, buildModel env m = .error (PyErr.keyError k) := by
  cases h1 : alookup m "model" with
  | none =>
    right
    exact ⟨"model", by simp [buildModel, keyOf, h1]⟩
  | some mv =>
  cases h2 : alookup m "device" with
  | none =>
    right
    exact ⟨"device", by simp [buildModel, keyOf, h1, h2, except_bind_ok]⟩
  | some dv =>
  obtain ⟨dd, rfl⟩ := hdev dv h2
  obtain ⟨M1, hM1⟩ := dpWrapStep_ok env dd (env.getModel mv)
  cases h3 : alookup m "channels_last" with
  | none =>
    right
    exact ⟨"channels_last", by
      simp [buildModel, keyOf, h1, h2, h3, hM1, except_bind_ok]⟩
  | some clv =>
  obtain ⟨M2, hM2⟩ := clModelStep_ok env (Y.device dd) clv M1 hconv
  left
  exact ⟨(M2, Y.device dd), by
    simp [buildModel, keyOf, h1, h2, h3, hM1, hM2, except_bind_ok]⟩

/-! ## C5 — missing configuration keys propagate as uncaught lookup
errors -/

/-- C5: no handler in config.py or trainer.py catches a missing-key error.
If the parsed YAML has no `loaders` key, `load_config` propagates an error
to its caller, and whenever line 42 is the first failing operation (i.e.
the `device` entry is absent, null or a string) that error is
`KeyError('loaders')`.  If `config` has no `model` key, `create_trainer`
propagates `KeyError('model')`; if it has no `trainer` key — with the
`device` entry a `torch.device` as `load_config` produces, and the model
conversion failing only with `RuntimeError` — it propagates a `KeyError`
(for `trainer` itself or for a key read earlier in source order). -/
theorem missing_keys_uncaught :
    (∀ (cuda : Bool) (args : Args) (m : List (String × Y)),
      alookup m "loaders" = none →
      ∃ e, loadConfig cuda args (Y.dict m) = .error e
        ∧ (deviceEntryOk m → e = PyErr.keyError "loaders"))
    ∧ (∀ (env : ExtEnv) (m : List (String × Y)),
        alookup m "model" = none →
        createTrainer env m = .error (PyErr.keyError "model"))
    ∧ ∀ (env : ExtEnv) (m : List (String × Y)),
        alookup m "trainer" = none →
        (∀ v, alookup m "device" = some v → ∃ dd, v = Y.device dd) →
        (∀ x, (∃ y, env.convModel x = .ok y) ∨
            env.convModel x = .error PyErr.runtimeError) →
        ∃ k, createTrainer env m = .error (PyErr.keyError k) := by
  refine ⟨?_, ?_, ?_⟩
  · intro cuda args m hm
    cases db : deviceBlock cuda (alookup m "device") with
    | error e =>
      refine ⟨e, ?_, ?_⟩
      · simp only [loadConfig]
        rw [db]
      · intro hd
        obtain ⟨s, hs⟩ := deviceBlock_ok cuda m hd
        rw [db] at hs
        cases hs
    | ok s =>
      refine ⟨PyErr.keyError "loaders", ?_, fun _ => rfl⟩
      simp only [loadConfig]
      rw [db]
      have h2 : alookup (insertKey (insertKey m "device"
          (Y.device args.device)) "device_str" (Y.str args.device))
          "loaders" = none := by
        rw [alookup_insertKey_ne _ _ _ _ (by decide),
          alookup_insertKey_ne _ _ _ _ (by decide), hm]
      simp only [overrideLoad]
      rw [h2]
      rfl
  · intro env m hm
    simp [createTrainer, buildModel, keyOf, hm]
  · intro env m htr hdev hconv
    rcases buildModel_ok_or_keyError env m hdev hconv with ⟨M, hM⟩ | ⟨k, hk⟩
    · cases h4 : alookup m "optimizer" with
      | none =>
        exact ⟨"optimizer", by
          simp [createTrainer, keyOf, hM, h4, except_bind_ok]⟩
      | some ov =>
        by_cases hx : M.2.pyStr = "xpu"
        · cases h5 : alookup m "precision" with
          | none =>
            exact ⟨"precision", by
              simp [createTrainer, keyOf, hM, h4, hx, h5, except_bind_ok]⟩
          | some pv =>
            exact ⟨"trainer", by
              simp [createTrainer, keyOf, hM, h4, hx, h5, htr,
                except_bind_ok]⟩
        · exact ⟨"trainer", by
            simp [createTrainer, keyOf, hM, h4, hx, htr, except_bind_ok]⟩
    · exact ⟨k, by simp [createTrainer, hk]⟩

theorem missing_keys_uncaught_witness :
    alookup ([] : List (String × Y)) "model" = none
    ∧ createTrainer extEnv0 [] = .error (PyErr.keyError "model") :=
  ⟨rfl, missing_keys_uncaught.2.1 extEnv0 [] rfl⟩

theorem device_noninterference_witness :
    eraseKey c8m1 "device" = eraseKey c3m "device"
    ∧ loadConfig true defaultArgs (Y.dict c8m1) = .ok c8r1
    ∧ loadConfig false defaultArgs (Y.dict c3m) = .ok c8r2
    ∧ c8r1 = c8r2 :=
  ⟨rfl, rfl, rfl,
   device_noninterference.1 true false defaultArgs c8m1 c3m c8r1 c8r2
     rfl rfl rfl⟩

theorem trainStep_post_none (cfg : Cfg) (cf : Bool) (d cl : ℚ)
    (h : ¬(cfg.profile = true ∧ cfg.device_str = "xpu")) :
    (trainStep cfg cf d cl).2.2 = none := by
  unfold trainStep
  rw [if_neg h]
  by_cases hp : cfg.profile = true
  · rw [if_pos hp]
    rfl
  · rw [if_neg hp]
    rfl

theorem loopGo_spec (cfg : Cfg) (env : RunEnv) (lastIter : Int)
    (hpath : ¬(cfg.profile = true ∧ cfg.device_str = "xpu")) :
    ∀ (rem : Nat) (i : Int) (tt : ℚ) (tc : Nat),
    i ≤ cfg.num_iter → cfg.num_iter - i < (rem : Int) →
    loopGo cfg env lastIter rem i tt tc =
      .ok (tt + ∑ j ∈ (Finset.Ico i (cfg.num_iter + 1)).filter
              (fun j => cfg.num_warmup ≤ j ∧ j < lastIter),
            recordedDur cfg env j,
           tc + ((Finset.Ico i (cfg.num_iter + 1)).filter
              (fun j => cfg.num_warmup ≤ j ∧ j < lastIter)).card,
           cfg.num_iter) := by
  intro rem
  induction rem with
  | zero =>
    intro i tt tc hi hrem
    exfalso
    omega
  | succ r ih =>
    intro i tt tc hi hrem
    simp only [loopGo]
    rw [trainStep_post_none cfg _ _ _ hpath]
    simp only [Option.elim]
    by_cases hbreak : cfg.num_iter ≤ i
    · have hieq : i = cfg.num_iter := le_antisymm hi hbreak
      rw [if_pos hbreak]
      have hsingle : Finset.Ico i (cfg.num_iter + 1) = {i} := by
        ext x
        simp [Finset.mem_Ico]
        omega
      rw [hsingle, Finset.filter_singleton]
      by_cases hc : cfg.num_warmup ≤ cfg.num_iter ∧ cfg.num_iter < lastIter
      · simp [hieq, hc, recordedDur]
      · simp [hieq, hc]
    · rw [if_neg hbreak]
      rw [ih (i + 1) _ _ (by omega) (by omega)]
      have hsplit : Finset.Ico i (cfg.num_iter + 1) =
          insert i (Finset.Ico (i + 1) (cfg.num_iter + 1)) := by
        ext x
        simp [Finset.mem_Ico, Finset.mem_insert]
        omega
      have hnm : i ∉ (Finset.Ico (i + 1) (cfg.num_iter + 1)).filter
          (fun j => cfg.num_warmup ≤ j ∧ j < lastIter) := by
        simp [Finset.mem_filter, Finset.mem_Ico]
      rw [hsplit, Finset.filter_insert]
      by_cases hc : cfg.num_warmup ≤ i ∧ i < lastIter
      · simp only [if_pos hc, Finset.sum_insert hnm,
          Finset.card_insert_of_not_mem hnm, recordedDur]
        refine congrArg Except.ok ?_
        simp only [Prod.mk.injEq]
        exact ⟨by ring, by omega, trivial⟩
      · simp only [if_neg hc]

/-! ## C1 — which iterations are counted, and the reported throughput -/

/-- C1: in a run of `train` with `num_iter = N`, `num_warmup = W`, starting
at `num_iterations = 0`, with a train loader yielding at least `N + 1`
batches and `W + 1 < N` (on a path that completes — the xpu-profiled path
never does, see the C2 analysis — and with nonzero batch size and a nonzero
counted-time total so that lines 369-371 do not raise), the recorded
duration of iteration `i` enters the perf totals exactly for
`W ≤ i < N - 1`: the final `total_count` is `N - W - 1`, the final
`total_time` is the sum of the recorded durations over `W ≤ i < N - 1`, and
the printed throughput `perf = batch_size / (total_time / total_count)`
equals `batch_size × (N - W - 1) / total_time`. -/
theorem train_perf_counting (cfg : Cfg) (env : RunEnv) (len : Nat)
    (st : TrainerSt) (N W : Nat)
    (hN : cfg.num_iter = (N : Int)) (hW : cfg.num_warmup = (W : Int))
    (hst : st.num_iterations = 0)
    (hlen : N + 1 ≤ len) (hWN : W + 1 < N)
    (hpath : ¬(cfg.profile = true ∧ cfg.device_str = "xpu"))
    (hbs : cfg.batch_size ≠ 0)
    (hS : (∑ j ∈ Finset.Ico (W : Int) ((N : Int) - 1),
        recordedDur cfg env j) ≠ 0) :
    trainRun cfg env len st =
      .ok { ret := true,
            st := { st with num_iterations := (N : Int) },
            total_time := ∑ j ∈ Finset.Ico (W : Int) ((N : Int) - 1),
              recordedDur cfg env j,
            total_count := N - W - 1,
            latency := (∑ j ∈ Finset.Ico (W : Int) ((N : Int) - 1),
                recordedDur cfg env j) / ((N - W - 1 : Nat) : ℚ)
                / (cfg.batch_size : ℚ) * 1000,
            perf := (cfg.batch_size : ℚ) * ((N : ℚ) - W - 1)
                / ∑ j ∈ Finset.Ico (W : Int) ((N : Int) - 1),
                    recordedDur cfg env j } := by
  have hNlen : (N : Int) ≤ (len : Int) := by exact_mod_cast Nat.le_of_succ_le hlen
  have hlast : min (len : Int) cfg.num_iter - 1 = (N : Int) - 1 := by
    rw [hN, min_eq_right hNlen]
  have hloop := loopGo_spec cfg env ((N : Int) - 1) hpath len 0 0 0
    (by rw [hN]; exact_mod_cast Nat.zero_le N)
    (by rw [hN]; omega)
  have hset : (Finset.Ico (0 : Int) (cfg.num_iter + 1)).filter
      (fun j => cfg.num_warmup ≤ j ∧ j < (N : Int) - 1) =
      Finset.Ico (W : Int) ((N : Int) - 1) := by
    rw [hN, hW]
    ext x
    simp only [Finset.mem_Ico, Finset.mem_filter]
    have : (W : Int) + 1 < (N : Int) := by exact_mod_cast hWN
    omega
  rw [hset] at hloop
  have hcard : (Finset.Ico (W : Int) ((N : Int) - 1)).card = N - W - 1 := by
    rw [Int.card_Ico]
    omega
  rw [hcard] at hloop
  have htc : N - W - 1 ≠ 0 := by omega
  have htcq : ((N - W - 1 : Nat) : ℚ) ≠ 0 := by exact_mod_cast htc
  have havg : (∑ j ∈ Finset.Ico (W : Int) ((N : Int) - 1),
      recordedDur cfg env j) / ((N - W - 1 : Nat) : ℚ) ≠ 0 :=
    div_ne_zero hS htcq
  simp only [trainRun, hlast, hst]
  rw [hloop]
  simp only [except_bind_ok, zero_add, Nat.zero_add]
  rw [if_neg htc]
  rw [if_neg hbs]
  rw [if_neg havg]
  refine congrArg Except.ok ?_
  have hcast : ((N - W - 1 : Nat) : ℚ) = (N : ℚ) - W - 1 := by
    have : W + 1 ≤ N := Nat.le_of_lt hWN
    push_cast [Nat.sub_sub, Nat.cast_sub (by omega : W + 1 ≤ N)]
    ring
  simp only [TrainRes.mk.injEq]
  refine ⟨trivial, by rw [hN], trivial, trivial, trivial, ?_⟩
  rw [div_div_eq_mul_div, hcast]

theorem train_perf_counting_witness :
    c9cfg.num_iter = ((2 : Nat) : Int)
    ∧ c9cfg.num_warmup = ((0 : Nat) : Int)
    ∧ (∑ j ∈ Finset.Ico ((0 : Nat) : Int) (((2 : Nat) : Int) - 1),
        recordedDur c9cfg unitEnv j) ≠ 0
    ∧ trainRun c9cfg unitEnv 3 c9st =
      .ok { ret := true,
            st := { c9st with num_iterations := ((2 : Nat) : Int) },
            total_time := ∑ j ∈ Finset.Ico ((0 : Nat) : Int)
                (((2 : Nat) : Int) - 1), recordedDur c9cfg unitEnv j,
            total_count := 2 - 0 - 1,
            latency := (∑ j ∈ Finset.Ico ((0 : Nat) : Int)
                (((2 : Nat) : Int) - 1), recordedDur c9cfg unitEnv j)
                / ((2 - 0 - 1 : Nat) : ℚ) / (c9cfg.batch_size : ℚ) * 1000,
            perf := (c9cfg.batch_size : ℚ) * (((2 : Nat) : ℚ) - (0 : Nat) - 1)
                / ∑ j ∈ Finset.Ico ((0 : Nat) : Int) (((2 : Nat) : Int) - 1),
                    recordedDur c9cfg unitEnv j } := by
  have hone : recordedDur c9cfg unitEnv 0 = 1 := by
    norm_num [recordedDur, trainStep, iterBody3, c9cfg, unitEnv, clAttempted]
  have hico : Finset.Ico ((0 : Nat) : Int) (((2 : Nat) : Int) - 1) =
      {(0 : Int)} := by
    ext x
    simp only [Finset.mem_Ico, Finset.mem_singleton]
    omega
  have hS : (∑ j ∈ Finset.Ico ((0 : Nat) : Int) (((2 : Nat) : Int) - 1),
      recordedDur c9cfg unitEnv j) ≠ 0 := by
    rw [hico, Finset.sum_singleton, hone]
    norm_num
  exact ⟨rfl, rfl, hS,
    train_perf_counting c9cfg unitEnv 3 c9st 2 0 rfl rfl rfl
      (by omega) (by omega) (by simp [c9cfg]) (by decide) hS⟩

/-! ## C9 — `train` returns True, so `fit` runs exactly one epoch -/

/-- C9: `UNet3DTrainer.train` returns `True` on every invocation that
completes (trainer.py line 375); consequently, for a trainer with
`num_epochs < max_num_epochs` whose first `train()` call completes, `fit`
calls `train` exactly once, leaves `num_epochs` unchanged, and returns —
regardless of how large `max_num_epochs` is. -/
theorem train_returns_true_fit_once (cfg : Cfg) (env : RunEnv) (len : Nat)
    (st : TrainerSt) (res : TrainRes)
    (h : trainRun cfg env len st = .ok res) :
    res.ret = true
    ∧ res.st.num_epochs = st.num_epochs
    ∧ res.st.max_num_epochs = st.max_num_epochs
    ∧ (st.num_epochs < st.max_num_epochs →
        fit cfg env len st = .ok (1, res.st)) := by
  have hmain : res.ret = true ∧ res.st.num_epochs = st.num_epochs
      ∧ res.st.max_num_epochs = st.max_num_epochs := by
    simp only [trainRun] at h
    cases hl : loopGo cfg env (min (len : Int) cfg.num_iter - 1) len
        st.num_iterations 0 0 with
    | error e =>
      rw [hl] at h
      simp at h
    | ok trip =>
      rw [hl] at h
      simp only [except_bind_ok] at h
      by_cases h1 : trip.2.1 = 0
      · rw [if_pos h1] at h
        simp at h
      · rw [if_neg h1] at h
        by_cases h2 : cfg.batch_size = 0
        · rw [if_pos h2] at h
          simp at h
        · rw [if_neg h2] at h
          by_cases h3 : trip.1 / (trip.2.1 : ℚ) = 0
          · rw [if_pos h3] at h
            simp at h
          · rw [if_neg h3] at h
            simp only [except_pure_eq_ok, Except.ok.injEq] at h
            subst h
            exact ⟨rfl, rfl, rfl⟩
  refine ⟨hmain.1, hmain.2.1, hmain.2.2, ?_⟩
  intro hlt
  have hpos : (st.max_num_epochs - st.num_epochs).toNat ≠ 0 := by omega
  obtain ⟨k, hk⟩ := Nat.exists_eq_succ_of_ne_zero hpos
  unfold fit
  rw [hk]
  simp only [fitGo]
  rw [h]
  simp [hmain.1]

theorem train_returns_true_fit_once_witness :
    trainRun c9cfg unitEnv 3 c9st = .ok c9res
    ∧ c9res.ret = true
    ∧ c9res.st.num_epochs = c9st.num_epochs
    ∧ c9st.num_epochs < c9st.max_num_epochs
    ∧ fit c9cfg unitEnv 3 c9st = .ok (1, c9res.st) := by
  have h : trainRun c9cfg unitEnv 3 c9st = .ok c9res := by
    norm_num [trainRun, loopGo, trainStep, iterBody3, clAttempted, c9cfg,
      unitEnv, c9st, c9res, Option.elim, TrainRes.mk.injEq]
  have hh := train_returns_true_fit_once c9cfg unitEnv 3 c9st c9res h
  exact ⟨h, hh.1, hh.2.1, by decide, hh.2.2.2 (by decide)⟩

theorem xpu_path_name_error_witness :
    (c2cfg.device_str = "xpu"
      ∧ eraseProf (iterBody1Fixed c2cfg 100 0 false 1 0).1 =
          eraseProf (iterBody3 c2cfg false 1 0).1)
    ∧ c9cfg.device_str ≠ "xpu"
    ∧ eraseProf (iterBody2 c9cfg false 1 0).1 =
        eraseProf (iterBody3 c9cfg false 1 0).1 :=
  ⟨⟨rfl, (xpu_path_name_error.2.2.1 c2cfg 100 0 false 1 0 rfl).1⟩,
   by decide,
   (xpu_path_name_error.2.2.2 c9cfg false 1 0 (by decide)).1⟩

end U3D
